import Mathlib

/-!
Shallow embedding of `src/wiki.go` (corburn/gowiki), a minimal wiki server.

The Go program consists of:
  * a compiled regular expression `titleValidator = regexp.MustCompile("^[a-zA-Z0-9]+$")`;
  * a `Page` struct (`Title string`, `Body []byte`);
  * `Page.save` writing `Body` to the file `Title + ".txt"` with mode 0600 via
    `ioutil.WriteFile`;
  * `loadPage` reading `title + ".txt"` via `ioutil.ReadFile`;
  * three handlers (`viewHandler`, `editHandler`, `saveHandler`) and the routing
    wrapper `makeHandler`.

The filesystem is modelled as an explicit state (`World`): a partial map from
filenames to file data (content bytes plus permission bits), together with a
write-error oracle describing which writes the operating system rejects (and
with which message), so that the fallible `save` path is representable.
Reads fail exactly when the file is absent, matching the callers, which only
ever test `err != nil` on load.

The Go regexp `^[a-zA-Z0-9]+$` is embedded as a small executable
Brzozowski-derivative matcher rather than as its informal reading, so that the
spec's characterisation of the validator is a theorem about the matcher, not a
restatement of a definition.
-/

namespace Gowiki

/-! ### Regular expressions (Brzozowski derivatives)

`titleValidator` in the source is `regexp.MustCompile("^[a-zA-Z0-9]+$")` and is
only ever used through `MatchString`.  Since the pattern is anchored on both
sides, `MatchString` is a full match of `[a-zA-Z0-9]+`, i.e. of
`cat cls (star cls)` for the character class `cls = [a-zA-Z0-9]`. -/

/-- Regular expression syntax: empty language, empty string, a character
class given by a predicate, alternation, concatenation, Kleene star. -/
inductive Regex where
  | emptySet : Regex
  | epsilon : Regex
  | cls (p : Char → Bool) : Regex
  | alt (r₁ r₂ : Regex) : Regex
  | cat (r₁ r₂ : Regex) : Regex
  | star (r : Regex) : Regex

/-- Does the regex accept the empty string? -/
def Regex.nullable : Regex → Bool
  | .emptySet => false
  | .epsilon => true
  | .cls _ => false
  | .alt r₁ r₂ => r₁.nullable || r₂.nullable
  | .cat r₁ r₂ => r₁.nullable && r₂.nullable
  | .star _ => true

/-- Brzozowski derivative of a regex with respect to a character. -/
def Regex.deriv : Regex → Char → Regex
  | .emptySet, _ => .emptySet
  | .epsilon, _ => .emptySet
  | .cls p, c => if p c then .epsilon else .emptySet
  | .alt r₁ r₂, c => .alt (r₁.deriv c) (r₂.deriv c)
  | .cat r₁ r₂, c =>
      if r₁.nullable then .alt (.cat (r₁.deriv c) r₂) (r₂.deriv c)
      else .cat (r₁.deriv c) r₂
  | .star r, c => .cat (r.deriv c) (.star r)

/-- Full (anchored) matching by repeated derivation. -/
def Regex.rmatch : Regex → List Char → Bool
  | r, [] => r.nullable
  | r, c :: cs => (r.deriv c).rmatch cs

/-- Matching for a fully anchored pattern, as `MatchString` on `^...$`: a full match of the string. -/
def Regex.MatchString (r : Regex) (s : String) : Bool :=
  r.rmatch s.data

/-- The character class `[a-zA-Z0-9]` of the source pattern. -/
def isTitleChar (c : Char) : Bool :=
  ('a' ≤ c && c ≤ 'z') || ('A' ≤ c && c ≤ 'Z') || ('0' ≤ c && c ≤ '9')

/-- Embedding of `titleValidator = regexp.MustCompile("^[a-zA-Z0-9]+$")` (src/wiki.go:16):
the anchored pattern `[a-zA-Z0-9]+`, i.e. one class character followed by a
star of class characters. -/
def titleValidator : Regex :=
  .cat (.cls isTitleChar) (.star (.cls isTitleChar))

/-! ### Data model and page store -/

/-- Body bytes: `[]byte` in the source, a list of byte values here. -/
abbrev Bytes := List Nat

/-- Struct `Page` (src/wiki.go:20-23): a wiki page in memory. -/
structure Page where
  Title : String
  Body : Bytes
deriving DecidableEq

/-- Content and permission bits of one on-disk file. -/
structure FileData where
  content : Bytes
  perm : Nat
deriving DecidableEq

/-- Filesystem state plus a write-error oracle: `writeError n = some e` means
the operating system rejects a write to filename `n` with message `e`
(permissions, disk full, ...). -/
structure World where
  files : String → Option FileData
  writeError : String → Option String

/-- A world with no files and no failing writes. -/
def emptyWorld : World :=
  { files := fun _ => none, writeError := fun _ => none }

/-- The filename both `save` and `loadPage` derive from a title:
`title + ".txt"` (src/wiki.go:27,33). -/
def pageFilename (title : String) : String :=
  title ++ ".txt"

/-- Embedding of `ioutil.WriteFile filename data 0600` (as called at src/wiki.go:28):
creates the file if absent or truncates it if present, leaving it with the
given content and permission bits; fails with the oracle's message when the
operating system rejects the write.  `writeWorld` is the filesystem after a
successful write: the named file holds exactly the written content and
permission bits, every other file is untouched. -/
def writeWorld (filename : String) (data : Bytes) (perm : Nat) (w : World) :
    World :=
  { w with
      files := fun n =>
        if n = filename then some ⟨data, perm⟩ else w.files n }

def writeFile (filename : String) (data : Bytes) (perm : Nat) (w : World) :
    Except String World :=
  match w.writeError filename with
  | some e => .error e
  | none => .ok (writeWorld filename data perm w)

/-- Method `Page.save` (src/wiki.go:26-29): write `Body` to `Title + ".txt"` with
mode 0600. -/
def Page.save (p : Page) (w : World) : Except String World :=
  writeFile (pageFilename p.Title) p.Body 0o600 w

/-- Function `loadPage` (src/wiki.go:32-39): read `title + ".txt"`; on read failure
(the file is absent) return the error, otherwise a `Page` with that title and
the file's raw bytes. -/
def loadPage (title : String) (w : World) : Option Page :=
  match w.files (pageFilename title) with
  | none => none
  | some fd => some ⟨title, fd.content⟩

/-! ### HTTP layer -/

/-- The response a handler writes: a rendered template (200), a
`http.Redirect ... http.StatusFound` (302), `http.NotFound` (404), or
`http.Error ... http.StatusInternalServerError` with the error text (500). -/
inductive Response where
  | render (tmplFile : String) (p : Page) : Response
  | redirect (loc : String) : Response
  | notFound : Response
  | internalError (msg : String) : Response
deriving DecidableEq

/-- The HTTP status code each response carries. -/
def Response.status : Response → Nat
  | .render _ _ => 200
  | .redirect _ => 302
  | .notFound => 404
  | .internalError _ => 500

/-- The parts of `*http.Request` the program reads: the URL path and the
parsed form, an ordered list of key-value pairs. -/
structure Request where
  path : String
  form : List (String × String)

/-- Accessor `r.FormValue name` (as used at src/wiki.go:72): the first form value for
`name`, or the empty string when the form has no such component. -/
def Request.FormValue (r : Request) (name : String) : String :=
  match r.form.find? (fun kv => kv.1 = name) with
  | some kv => kv.2
  | none => ""

/-- Conversion `[]byte(body)` at src/wiki.go:75: the UTF-8 bytes of a Go string. -/
def strBytes (s : String) : Bytes :=
  (s.data.flatMap String.utf8EncodeChar).map (fun b => b.toNat)

/-- Function `renderTemplate` (src/wiki.go:41-46): hands `tmpl + ".html"` and the page
to the template set.  The template engine is an external collaborator; its own
failure path (a further 500) is outside this embedding, so rendering is
modelled as producing the rendered response. -/
def renderTemplate (tmpl : String) (p : Page) : Response :=
  .render (tmpl ++ ".html") p

/-- Function `viewHandler` (src/wiki.go:49-56): on load failure redirect to
`"/edit/" + title`, otherwise render the "view" template with the page. -/
def viewHandler (w : World) (_r : Request) (title : String) :
    Response × World :=
  match loadPage title w with
  | none => (.redirect ("/edit/" ++ title), w)
  | some p => (renderTemplate "view" p, w)

/-- Function `editHandler` (src/wiki.go:59-65): on load failure substitute
`&Page{Title: title}` (empty body), then render the "edit" template. -/
def editHandler (w : World) (_r : Request) (title : String) :
    Response × World :=
  match loadPage title w with
  | none => (renderTemplate "edit" ⟨title, []⟩, w)
  | some p => (renderTemplate "edit" p, w)

/-- Function `saveHandler` (src/wiki.go:71-82): build a page from the title and the
form's `body` field, save it; on failure answer 500 with the error's message
and stop, on success redirect to `"/view/" + title`. -/
def saveHandler (w : World) (r : Request) (title : String) :
    Response × World :=
  let body := r.FormValue "body"
  let p : Page := ⟨title, strBytes body⟩
  match p.save w with
  | .error e => (.internalError e, w)
  | .ok w' => (.redirect ("/view/" ++ title), w')

/-- Constant `lenPath = len("/view/")` (src/wiki.go:10). -/
def lenPath : Nat := "/view/".length

/-- Function `makeHandler` (src/wiki.go:86-97): take `r.URL.Path[lenPath:]` as the
title; if the validator rejects it answer `http.NotFound` and stop, otherwise
call the wrapped handler with the extracted title. -/
def makeHandler (fn : World → Request → String → Response × World)
    (w : World) (r : Request) : Response × World :=
  let title := r.path.drop lenPath
  if titleValidator.MatchString title then fn w r title
  else (.notFound, w)

/-! ### Concrete states and requests used to evaluate the definitions -/

/-- The world after saving page `⟨"Foo", [1, 2]⟩` into the empty world. -/
def world1 : World :=
  match Page.save ⟨"Foo", [1, 2]⟩ emptyWorld with
  | .ok w => w
  | .error _ => emptyWorld

/-- A world in which the operating system rejects writes to `"Bad.txt"`. -/
def failWorld : World :=
  { files := fun _ => none,
    writeError := fun n => if n = "Bad.txt" then some "disk full" else none }

/-- A save request whose form carries `body=hi`. -/
def reqBody : Request := ⟨"/save/Foo", [("body", "hi")]⟩

/-- A request whose form has no `body` component at all. -/
def reqNone : Request := ⟨"/save/Foo", []⟩

/-- A request for a title containing a space and `!`. -/
def reqBadTitle : Request := ⟨"/edit/bad title!", []⟩

/-- A view request for the title `Foo`. -/
def reqView : Request := ⟨"/view/Foo", []⟩

/-- The world produced by the successful save inside `saveHandler` on
`reqBody` from the empty world. -/
def wFoo : World :=
  match Page.save ⟨"Foo", strBytes (reqBody.FormValue "body")⟩ emptyWorld with
  | .ok w => w
  | .error _ => emptyWorld

/-- The world after saving `⟨"Idem", [9]⟩` once into the empty world. -/
def worldA : World :=
  match Page.save ⟨"Idem", [9]⟩ emptyWorld with
  | .ok w => w
  | .error _ => emptyWorld

/-- The world after saving `⟨"Idem", [9]⟩` a second time. -/
def worldB : World :=
  match Page.save ⟨"Idem", [9]⟩ worldA with
  | .ok w => w
  | .error _ => worldA

/-! ### Behaviour of the derivative matcher on the title pattern -/

theorem Regex.rmatch_emptySet (l : List Char) :
    Regex.emptySet.rmatch l = false := by
  induction l with
  | nil => rfl
  | cons c cs ih => simpa [Regex.rmatch, Regex.deriv] using ih

theorem Regex.rmatch_alt (r₁ r₂ : Regex) (l : List Char) :
    (Regex.alt r₁ r₂).rmatch l = (r₁.rmatch l || r₂.rmatch l) := by
  induction l generalizing r₁ r₂ with
  | nil => rfl
  | cons c cs ih => simp [Regex.rmatch, Regex.deriv, ih]

theorem Regex.rmatch_cat_emptySet (r : Regex) (l : List Char) :
    (Regex.cat .emptySet r).rmatch l = false := by
  induction l with
  | nil => rfl
  | cons c cs ih =>
      simpa [Regex.rmatch, Regex.deriv, Regex.nullable] using ih

theorem Regex.rmatch_cat_epsilon (r : Regex) (l : List Char) :
    (Regex.cat .epsilon r).rmatch l = r.rmatch l := by
  cases l with
  | nil => simp [Regex.rmatch, Regex.nullable]
  | cons c cs =>
      simp [Regex.rmatch, Regex.deriv, Regex.nullable, Regex.rmatch_alt,
        Regex.rmatch_cat_emptySet]

theorem Regex.rmatch_star_cls (p : Char → Bool) (l : List Char) :
    (Regex.star (.cls p)).rmatch l = l.all p := by
  induction l with
  | nil => rfl
  | cons c cs ih =>
      by_cases h : p c
      · simp [Regex.rmatch, Regex.deriv, h, Regex.rmatch_cat_epsilon, ih]
      · simp [Regex.rmatch, Regex.deriv, h, Regex.rmatch_cat_emptySet]

theorem titleValidator_rmatch (l : List Char) :
    titleValidator.rmatch l = (!l.isEmpty && l.all isTitleChar) := by
  cases l with
  | nil => rfl
  | cons c cs =>
      by_cases h : isTitleChar c
      · simp [titleValidator, Regex.rmatch, Regex.deriv, Regex.nullable, h,
          Regex.rmatch_cat_epsilon, Regex.rmatch_star_cls]
      · simp [titleValidator, Regex.rmatch, Regex.deriv, Regex.nullable, h,
          Regex.rmatch_cat_emptySet]

theorem string_ne_empty_iff_data (s : String) : s ≠ "" ↔ s.data ≠ [] :=
  not_congr ⟨fun h => by simp [h], fun h => String.ext h⟩

/-- Characterisation of the compiled pattern: `MatchString` accepts exactly
the non-empty strings all of whose characters lie in `[a-zA-Z0-9]`. -/
theorem titleValidator_MatchString_iff (s : String) :
    titleValidator.MatchString s = true ↔
      s ≠ "" ∧ ∀ c ∈ s.data, isTitleChar c = true := by
  rw [Regex.MatchString, titleValidator_rmatch, string_ne_empty_iff_data]
  simp [List.all_eq_true, List.isEmpty_iff]

/-- A character of the class `[a-zA-Z0-9]` is not a path separator. -/
theorem isTitleChar_ne_slash (c : Char) (h : isTitleChar c = true) :
    c ≠ '/' := by
  intro hc
  subst hc
  exact absurd h (by decide)

/-- The Go string conversion `[]byte("")` yields no bytes. -/
theorem strBytes_empty : strBytes "" = [] := by decide

/-- A character of the class `[a-zA-Z0-9]` is not a dot. -/
theorem isTitleChar_ne_dot (c : Char) (h : isTitleChar c = true) :
    c ≠ '.' := by
  intro hc
  subst hc
  exact absurd h (by decide)

/-! ### The claims -/

/-- C1: for every accepted title `T` and every body byte sequence `B`,
saving the page `⟨T, B⟩` and then loading `T` succeeds and yields a page
whose body is byte-for-byte `B` and whose title is `T`. -/
theorem save_then_load_roundtrip (T : String) (B : Bytes) (w w' : World)
    (hT : titleValidator.MatchString T = true)
    (hs : Page.save ⟨T, B⟩ w = .ok w') :
    loadPage T w' = some ⟨T, B⟩ := by
  unfold Page.save writeFile at hs
  cases hw : w.writeError (pageFilename (Page.mk T B).Title) with
  | some e => rw [hw] at hs; exact absurd hs (by simp)
  | none =>
      rw [hw] at hs
      simp only [Except.ok.injEq] at hs
      subst hs
      simp [loadPage, writeWorld]

/-- Witness for C1 at title `"Foo"`, body `[1, 2]`. -/
theorem save_then_load_roundtrip_witness :
    loadPage "Foo" world1 = some ⟨"Foo", [1, 2]⟩ :=
  save_then_load_roundtrip "Foo" [1, 2] emptyWorld world1 (by decide) rfl

/-- C2: the title validator accepts a string iff it is non-empty and all of
its characters are in `[a-zA-Z0-9]`; in particular it rejects the empty
string and any string with a character outside that class. -/
theorem titleValidator_accepts_iff (s : String) :
    titleValidator.MatchString s = true ↔
      s ≠ "" ∧ ∀ c ∈ s.data, isTitleChar c = true :=
  titleValidator_MatchString_iff s

/-- Witness for C2: the accepted title `"Foo9"` is non-empty and in the
class, and the validator accepts it. -/
theorem titleValidator_accepts_iff_witness :
    titleValidator.MatchString "Foo9" = true :=
  (titleValidator_accepts_iff "Foo9").mpr ⟨by decide, by decide⟩

/-- C7: `save` writes exactly the page's body bytes to `Title + ".txt"` with
permission 0600, creating or truncating the file (other files untouched), and
signals the failure's error on any rejected write. -/
theorem save_spec (p : Page) (w : World) :
    (∀ e, w.writeError (pageFilename p.Title) = some e →
        p.save w = .error e)
    ∧ (w.writeError (pageFilename p.Title) = none →
        ∃ w', p.save w = .ok w'
          ∧ w'.files (pageFilename p.Title) = some ⟨p.Body, 0o600⟩
          ∧ (∀ n, n ≠ pageFilename p.Title → w'.files n = w.files n)
          ∧ w'.writeError = w.writeError) := by
  constructor
  · intro e he
    simp [Page.save, writeFile, he]
  · intro hn
    refine ⟨writeWorld (pageFilename p.Title) p.Body 0o600 w, ?_, ?_, ?_, rfl⟩
    · simp [Page.save, writeFile, hn]
    · simp [writeWorld]
    · intro n hne
      simp [writeWorld, hne]

/-- Witness for C7: a rejected write on `"Bad.txt"` errors with its message,
and a successful save of `⟨"Foo", [7]⟩` stores `[7]` at mode 0600. -/
theorem save_spec_witness :
    Page.save ⟨"Bad", []⟩ failWorld = .error "disk full"
    ∧ ∃ w', Page.save ⟨"Foo", [7]⟩ emptyWorld = .ok w'
        ∧ w'.files (pageFilename "Foo") = some ⟨[7], 0o600⟩
        ∧ (∀ n, n ≠ pageFilename "Foo" → w'.files n = emptyWorld.files n)
        ∧ w'.writeError = emptyWorld.writeError :=
  ⟨(save_spec ⟨"Bad", []⟩ failWorld).1 "disk full" (by decide),
   (save_spec ⟨"Foo", [7]⟩ emptyWorld).2 rfl⟩

/-- C9: saving the same page twice leaves the stored files identical to a
single save. -/
theorem save_idempotent (p : Page) (w w₁ w₂ : World)
    (h₁ : p.save w = .ok w₁) (h₂ : p.save w₁ = .ok w₂) :
    ∀ n, w₂.files n = w₁.files n := by
  intro n
  unfold Page.save writeFile at h₁ h₂
  cases hw : w.writeError (pageFilename p.Title) with
  | some e => rw [hw] at h₁; exact absurd h₁ (by simp)
  | none =>
      rw [hw] at h₁
      simp only [Except.ok.injEq] at h₁
      subst h₁
      simp only [writeWorld, hw] at h₂
      simp only [Except.ok.injEq] at h₂
      subst h₂
      by_cases hn : n = pageFilename p.Title <;> simp [writeWorld, hn]

/-- Witness for C9: after two saves of `⟨"Idem", [9]⟩`, the stored file at
`"Idem.txt"` is the same as after one. -/
theorem save_idempotent_witness :
    worldB.files "Idem.txt" = worldA.files "Idem.txt" :=
  save_idempotent ⟨"Idem", [9]⟩ emptyWorld worldA worldB rfl rfl "Idem.txt"

/-- C3: for a validated title, the save handler persists the page built from
the title and the form's `body` field; on persistence failure it answers 500
with the failure's description and does not redirect, on success it answers a
302 redirect to the view path of the same title. -/
theorem saveHandler_spec (w : World) (r : Request) (title : String)
    (hT : titleValidator.MatchString title = true) :
    (∀ e, Page.save ⟨title, strBytes (r.FormValue "body")⟩ w = .error e →
        saveHandler w r title = (.internalError e, w)
        ∧ (Response.internalError e).status = 500)
    ∧ (∀ w', Page.save ⟨title, strBytes (r.FormValue "body")⟩ w = .ok w' →
        saveHandler w r title = (.redirect ("/view/" ++ title), w')
        ∧ (Response.redirect ("/view/" ++ title)).status = 302) := by
  constructor
  · intro e he
    exact ⟨by simp [saveHandler, he], rfl⟩
  · intro w' hw
    exact ⟨by simp [saveHandler, hw], rfl⟩

/-- Witness for C3: a rejected write to `"Bad.txt"` yields the 500 with the
message and no redirect; a successful save of `Foo` redirects to
`"/view/Foo"`. -/
theorem saveHandler_spec_witness :
    (saveHandler failWorld reqBody "Bad" = (.internalError "disk full", failWorld)
      ∧ (Response.internalError "disk full").status = 500)
    ∧ (saveHandler emptyWorld reqBody "Foo" = (.redirect ("/view/" ++ "Foo"), wFoo)
      ∧ (Response.redirect ("/view/" ++ "Foo")).status = 302) :=
  ⟨(saveHandler_spec failWorld reqBody "Bad" (by decide)).1 "disk full" rfl,
   (saveHandler_spec emptyWorld reqBody "Foo" (by decide)).2 wFoo rfl⟩

/-- C4: for a validated title whose load fails, the view handler answers a
302 redirect to the edit path of that exact title (no error response); when
the load succeeds it renders the "view" template with the loaded page. -/
theorem viewHandler_spec (w : World) (r : Request) (title : String)
    (hT : titleValidator.MatchString title = true) :
    (loadPage title w = none →
        viewHandler w r title = (.redirect ("/edit/" ++ title), w)
        ∧ (Response.redirect ("/edit/" ++ title)).status = 302)
    ∧ (∀ p, loadPage title w = some p →
        viewHandler w r title = (renderTemplate "view" p, w)) := by
  constructor
  · intro hl
    exact ⟨by simp [viewHandler, hl], rfl⟩
  · intro p hl
    simp [viewHandler, hl]

/-- Witness for C4: `GET /view/Missing` on the empty world redirects to
`"/edit/Missing"`; viewing `Foo` in `world1` renders the view template. -/
theorem viewHandler_spec_witness :
    (viewHandler emptyWorld reqView "Missing"
        = (.redirect ("/edit/" ++ "Missing"), emptyWorld)
      ∧ (Response.redirect ("/edit/" ++ "Missing")).status = 302)
    ∧ viewHandler world1 reqView "Foo"
        = (renderTemplate "view" ⟨"Foo", [1, 2]⟩, world1) :=
  ⟨(viewHandler_spec emptyWorld reqView "Missing" (by decide)).1 rfl,
   (viewHandler_spec world1 reqView "Foo" (by decide)).2 ⟨"Foo", [1, 2]⟩ rfl⟩

/-- C5: for a validated title whose load fails, the edit handler synthesizes
a page with that title and empty body and renders the "edit" template with
it; on a successful load it renders the "edit" template with the loaded
page. -/
theorem editHandler_spec (w : World) (r : Request) (title : String)
    (hT : titleValidator.MatchString title = true) :
    (loadPage title w = none →
        editHandler w r title = (renderTemplate "edit" ⟨title, []⟩, w))
    ∧ (∀ p, loadPage title w = some p →
        editHandler w r title = (renderTemplate "edit" p, w)) := by
  constructor
  · intro hl
    simp [editHandler, hl]
  · intro p hl
    simp [editHandler, hl]

/-- Witness for C5: editing the never-saved title `Missing` renders the edit
template on an empty-body page; editing `Foo` in `world1` renders the loaded
page. -/
theorem editHandler_spec_witness :
    editHandler emptyWorld reqNone "Missing"
        = (renderTemplate "edit" ⟨"Missing", []⟩, emptyWorld)
    ∧ editHandler world1 reqNone "Foo"
        = (renderTemplate "edit" ⟨"Foo", [1, 2]⟩, world1) :=
  ⟨(editHandler_spec emptyWorld reqNone "Missing" (by decide)).1 rfl,
   (editHandler_spec world1 reqNone "Foo" (by decide)).2 ⟨"Foo", [1, 2]⟩ rfl⟩

/-- C6: the router obtains the title by dropping the fixed-length prefix
(`lenPath = len "/view/"`) from the request path; on validation failure it
answers 404 and leaves the world untouched (the handler is never invoked,
whatever it is), and on success it invokes the wrapped handler on the
extracted title. -/
theorem makeHandler_spec (fn : World → Request → String → Response × World)
    (w : World) (r : Request) :
    (titleValidator.MatchString (r.path.drop lenPath) = false →
        makeHandler fn w r = (.notFound, w)
        ∧ Response.notFound.status = 404)
    ∧ (titleValidator.MatchString (r.path.drop lenPath) = true →
        makeHandler fn w r = fn w r (r.path.drop lenPath)) := by
  constructor
  · intro hv
    exact ⟨by simp [makeHandler, hv], rfl⟩
  · intro hv
    simp [makeHandler, hv]

/-- Witness for C6: `GET /edit/bad title!` is answered 404 with the world
untouched, and `/view/Foo` dispatches to the view handler on `"Foo"`. -/
theorem makeHandler_spec_witness :
    (makeHandler editHandler emptyWorld reqBadTitle = (.notFound, emptyWorld)
      ∧ Response.notFound.status = 404)
    ∧ makeHandler viewHandler emptyWorld reqView
        = viewHandler emptyWorld reqView (reqView.path.drop lenPath) :=
  ⟨(makeHandler_spec editHandler emptyWorld reqBadTitle).1 (by decide),
   (makeHandler_spec viewHandler emptyWorld reqView).2 (by decide)⟩

/-- C8: on accepted titles the map to on-disk filenames is injective, and the
filename of an accepted title contains no path separator and no dot besides
the one of its `".txt"` extension. -/
theorem pageFilename_injective_safe (T₁ T₂ : String)
    (h₁ : titleValidator.MatchString T₁ = true)
    (h₂ : titleValidator.MatchString T₂ = true)
    (hne : T₁ ≠ T₂) :
    pageFilename T₁ ≠ pageFilename T₂
    ∧ (∀ c ∈ (pageFilename T₁).data, c ≠ '/')
    ∧ (pageFilename T₁).data.count '.' = 1 := by
  obtain ⟨-, hall⟩ := (titleValidator_MatchString_iff T₁).mp h₁
  refine ⟨?_, ?_, ?_⟩
  · intro h
    exact hne (String.ext (List.append_cancel_right
      (congrArg String.data h)))
  · intro c hc
    rw [pageFilename, String.data_append] at hc
    rcases List.mem_append.mp hc with hc | hc
    · exact isTitleChar_ne_slash c (hall c hc)
    · fin_cases hc <;> decide
  · rw [pageFilename, String.data_append, List.count_append]
    have h0 : T₁.data.count '.' = 0 := by
      rw [List.count_eq_zero]
      intro hmem
      exact isTitleChar_ne_dot '.' (hall '.' hmem) rfl
    rw [h0]
    rfl

/-- Witness for C8 at the distinct accepted titles `"Foo"` and `"Bar"`. -/
theorem pageFilename_injective_safe_witness :
    pageFilename "Foo" ≠ pageFilename "Bar"
    ∧ (∀ c ∈ (pageFilename "Foo").data, c ≠ '/')
    ∧ (pageFilename "Foo").data.count '.' = 1 :=
  pageFilename_injective_safe "Foo" "Bar" (by decide) (by decide) (by decide)

/-- C10: for a validated title, a save request whose form has no `body`
component (or an explicitly empty one) still succeeds when the write is
accepted: the empty string is read off the form, a page with empty body is
saved, and the file `title + ".txt"` is created or truncated to empty
content. -/
theorem saveHandler_empty_body (w : World) (r : Request) (title : String)
    (hT : titleValidator.MatchString title = true)
    (hb : r.form.find? (fun kv => kv.1 = "body") = none
          ∨ r.FormValue "body" = "")
    (hw : w.writeError (pageFilename title) = none) :
    r.FormValue "body" = ""
    ∧ saveHandler w r title
        = (.redirect ("/view/" ++ title), writeWorld (pageFilename title) [] 0o600 w)
    ∧ (writeWorld (pageFilename title) [] 0o600 w).files (pageFilename title)
        = some ⟨[], 0o600⟩ := by
  have hb' : r.FormValue "body" = "" := by
    rcases hb with hb | hb
    · simp [Request.FormValue, hb]
    · exact hb
  refine ⟨hb', ?_, ?_⟩
  · simp [saveHandler, hb', strBytes_empty, Page.save, writeFile, hw]
  · simp [writeWorld]

/-- Witness for C10: posting to `/save/Foo` with an empty form on the empty
world saves an empty `"Foo.txt"` and redirects. -/
theorem saveHandler_empty_body_witness :
    reqNone.FormValue "body" = ""
    ∧ saveHandler emptyWorld reqNone "Foo"
        = (.redirect ("/view/" ++ "Foo"),
           writeWorld (pageFilename "Foo") [] 0o600 emptyWorld)
    ∧ (writeWorld (pageFilename "Foo") [] 0o600 emptyWorld).files
        (pageFilename "Foo") = some ⟨[], 0o600⟩ :=
  saveHandler_empty_body emptyWorld reqNone "Foo" (by decide) (Or.inl rfl) rfl

end Gowiki
